import Mathlib

/-
  Verification of the Kimiollo frontend against its specification.

  The definitions below are a shallow embedding of the React frontend:
  - contexts/AuthContext.js : useAuth, AuthProvider (hydration effect, login,
    register, logout, the provided value object);
  - components/Dashboard.js : fetchProposals / downloadProposalPDF catch
    handlers and the Funding button enablement;
  - components/ProposalUpload.js : the onDrop upload-progress assignments and
    its catch handler;
  - components/FundingRecommendations.js, components/ProposalAnalysis.js,
    components/BusinessPlanGenerator.js : their catch handlers.

  React state updates are modelled as explicit record updates on a session
  state; axios responses and thrown axios errors are explicit inputs.
-/

set_option autoImplicit false

/-- JavaScript truthiness of a value that is either a string or absent
(undefined/null): absent and the empty string are falsy. Embeds checks such
as `if (savedToken)` and `!!token`. -/
def jsTruthyStr : Option String → Bool
  | none => false
  | some s => !(s == "")

/-- JavaScript `a || d` for `a` a possibly-absent string and `d` a string
default: yields `d` when `a` is absent or empty (falsy). Embeds expressions
such as `error.response?.data?.error || 'Login failed'`. -/
def jsOr (a : Option String) (d : String) : String :=
  match a with
  | none => d
  | some s => if s = "" then d else s

/-- JavaScript `Math.round (num / den)` for natural `num`, `den` (round half
up, as for nonnegative arguments). Embeds
`Math.round((progressEvent.loaded * 100) / progressEvent.total)`. -/
def jsRound (num den : Nat) : Nat :=
  (2 * num + den) / (2 * den)

/-- Summary of the authenticated user cached by the client (data model of the
spec: id, name, email), received as `response.data.user`. -/
structure UserSummary where
  id : Nat
  name : String
  email : String
deriving DecidableEq, Repr

/-- The `error.response` part of a thrown axios error: an HTTP status and the
optional `data.error` field of the response body. -/
structure AxiosResponseError where
  status : Nat
  dataError : Option String := none
deriving DecidableEq, Repr

/-- A thrown axios error: `none` when the failure produced no response at all
(network failure, so `error.response` is undefined), otherwise the response. -/
abbrev AxiosFailure := Option AxiosResponseError

/-- HTTP status carried by a thrown axios error, embedding
`error.response?.status` (absent when there is no response). -/
def failureStatus : AxiosFailure → Option Nat :=
  fun e => e.map (·.status)

/-- Body error field carried by a thrown axios error, embedding
`error.response?.data?.error`. -/
def failureDataError : AxiosFailure → Option String :=
  fun e => e.bind (·.dataError)

/-- Result of awaiting `axios.post` on the login or register endpoint: either
a 2xx response whose `data` destructures into `access_token` and `user`, or a
thrown axios error. -/
inductive AuthApiResult where
  | ok (access_token : String) (userData : Option UserSummary)
  | err (failure : AxiosFailure)
deriving DecidableEq, Repr

/-- The discriminated result returned to callers of login and register:
`{ success: true, user }` or `{ success: false, error }`. -/
inductive AuthOutcome where
  | success (user : Option UserSummary)
  | failure (error : String)
deriving DecidableEq, Repr

/-- Boolean `success` discriminant of an auth outcome. -/
def AuthOutcome.isSuccess : AuthOutcome → Bool
  | .success _ => true
  | .failure _ => false

/-- Client-side session state of the AuthProvider together with the two
pieces of ambient state it writes: the browser cookie named `token` (value
and the `expires` option last passed to `Cookies.set`) and
`axios.defaults.headers.common.Authorization`. -/
structure AuthState where
  user : Option UserSummary
  token : Option String
  loading : Bool
  cookieToken : Option String
  cookieExpiresDays : Option Nat
  axiosAuthHeader : Option String
deriving DecidableEq, Repr

/-- State at cold start, before the mount effect runs: in-memory fields are
the `useState` initial values (`null`, `null`, `true`); the cookie may hold a
token persisted by a previous session; no default header is set. -/
def initAuthState (ambientCookie : Option String) : AuthState :=
  { user := none
    token := none
    loading := true
    cookieToken := ambientCookie
    cookieExpiresDays := none
    axiosAuthHeader := none }

/-- The mount effect of AuthProvider (cold-start hydration): read the cookie
named `token`; if it is truthy, adopt it as the session token and set the
axios default header to `Bearer` plus the saved token; in all cases end with
`loading` false. -/
def hydrate (s : AuthState) : AuthState :=
  if jsTruthyStr s.cookieToken then
    { s with token := s.cookieToken
             axiosAuthHeader := s.cookieToken.map (fun t => "Bearer " ++ t)
             loading := false }
  else
    { s with loading := false }

/-- The `login(email, password)` function of AuthContext, applied to the
result of its awaited POST. On a 2xx response it stores the token in the
cookie `token` with `expires: 1` day, sets the axios default header to
`Bearer` plus the token, updates the in-memory token and user, and returns
`{ success: true, user }`. On a thrown error it changes nothing and returns
`{ success: false, error: error.response?.data?.error || 'Login failed' }`. -/
def loginCall (s : AuthState) (r : AuthApiResult) : AuthState × AuthOutcome :=
  match r with
  | .ok t u =>
      ({ s with cookieToken := some t
                cookieExpiresDays := some 1
                axiosAuthHeader := some ("Bearer " ++ t)
                token := some t
                user := u },
       .success u)
  | .err e => (s, .failure (jsOr (failureDataError e) "Login failed"))

/-- The `register(name, email, password)` function of AuthContext: identical
to login except for the fallback error message. -/
def registerCall (s : AuthState) (r : AuthApiResult) : AuthState × AuthOutcome :=
  match r with
  | .ok t u =>
      ({ s with cookieToken := some t
                cookieExpiresDays := some 1
                axiosAuthHeader := some ("Bearer " ++ t)
                token := some t
                user := u },
       .success u)
  | .err e => (s, .failure (jsOr (failureDataError e) "Registration failed"))

/-- The `logout()` function of AuthContext: remove the cookie `token`, delete
the axios default Authorization header, reset token and user to null. -/
def logoutCall (s : AuthState) : AuthState :=
  { s with cookieToken := none
           cookieExpiresDays := none
           axiosAuthHeader := none
           token := none
           user := none }

/-- The derived `isAuthenticated: !!token` field of the provided value. -/
def isAuthenticated (s : AuthState) : Bool :=
  jsTruthyStr s.token

/-- One operation of the Auth Context acting on the session state: the mount
hydration, a login or register attempt (carrying the backend response it
received), or a logout. -/
inductive AuthEvent where
  | hydrateEv
  | loginAttempt (r : AuthApiResult)
  | registerAttempt (r : AuthApiResult)
  | logoutEv
deriving DecidableEq, Repr

/-- Effect of one Auth Context operation on the session state. -/
def authStep (s : AuthState) : AuthEvent → AuthState
  | .hydrateEv => hydrate s
  | .loginAttempt r => (loginCall s r).1
  | .registerAttempt r => (registerCall s r).1
  | .logoutEv => logoutCall s

/-- Modelled from the spec: the backend (its Flask implementation is not part
of the frontend sources) answers a successful login or register with a bearer
token — an "opaque credential sent with each request to prove identity" — so
the `access_token` of a success payload is a present, non-empty string; the
spec moreover places every login/register success in the Authenticated state.
Failed attempts are unconstrained. -/
def AuthEventWF : AuthEvent → Prop
  | .loginAttempt (.ok t _) => t ≠ ""
  | .registerAttempt (.ok t _) => t ≠ ""
  | _ => True

/-- Session states reachable by the Auth Context: a cold start with an
arbitrary ambient cookie, followed by any sequence of well-formed
operations. -/
inductive ReachableAuth : AuthState → Prop
  | init (c : Option String) : ReachableAuth (initAuthState c)
  | step {s : AuthState} (e : AuthEvent) :
      ReachableAuth s → AuthEventWF e → ReachableAuth (authStep s e)

/-- The value object provided by AuthProvider to consumers of the context
(its data fields; the function members act on the provider state and are
modelled by loginCall, registerCall and logoutCall). -/
structure AuthContextValue where
  user : Option UserSummary
  token : Option String
  loading : Bool
  isAuthenticated : Bool
deriving DecidableEq, Repr

/-- The value AuthProvider computes from its state (lines building the
`value` object, with `isAuthenticated: !!token`). -/
def providerValue (s : AuthState) : AuthContextValue :=
  { user := s.user
    token := s.token
    loading := s.loading
    isAuthenticated := isAuthenticated s }

/-- The `useAuth` hook: `useContext` yields the provider value when the
caller is rendered inside an AuthProvider and undefined otherwise; on a falsy
context the hook throws, otherwise it returns the context. -/
def useAuth : Option AuthContextValue → Except String AuthContextValue
  | none => .error "useAuth must be used within an AuthProvider"
  | some v => .ok v

/-- User-visible side effects a view handler can perform: toast
notifications, a call to the `logout()` of the Auth Context, and a router
navigation. React state updates local to the view are not part of this
alphabet. -/
inductive Effect where
  | toastErr (msg : String)
  | toastSucc (msg : String)
  | logoutEff
  | navEff (path : String)
deriving DecidableEq, Repr

/-- The shared 401 reaction: an error toast, `logout()`, then navigation to
the login route. -/
def sessionExpired401Effects : List Effect :=
  [Effect.toastErr "Session expired. Please login again.",
   Effect.logoutEff,
   Effect.navEff "/login"]

/-- Catch handler of `fetchProposals` in Dashboard.js. -/
def dashboardFetchProposalsCatch (e : AxiosFailure) : List Effect :=
  if failureStatus e = some 401 then
    sessionExpired401Effects
  else
    [Effect.toastErr "Failed to fetch proposals"]

/-- Catch handler of `downloadProposalPDF` in Dashboard.js. -/
def dashboardDownloadCatch (e : AxiosFailure) : List Effect :=
  if failureStatus e = some 401 then
    sessionExpired401Effects
  else
    [Effect.toastErr (jsOr (failureDataError e) "Failed to download proposal")]

/-- Catch handler of `onDrop` in ProposalUpload.js: the 401 reaction fires
only when the response body also carries `error: 'invalid_token'`; otherwise
the handler toasts the body error (or the fallback) and resets the local
upload state. -/
def uploadOnDropCatch (e : AxiosFailure) : List Effect :=
  if failureStatus e = some 401 ∧ failureDataError e = some "invalid_token" then
    sessionExpired401Effects
  else
    [Effect.toastErr (jsOr (failureDataError e) "Upload failed")]

/-- Catch handler of `fetchRecommendations` in FundingRecommendations.js. -/
def fundingFetchRecommendationsCatch (e : AxiosFailure) : List Effect :=
  if failureStatus e = some 401 then
    sessionExpired401Effects
  else
    [Effect.toastErr (jsOr (failureDataError e) "Failed to fetch funding recommendations")]

/-- Catch handler of `fetchProposalData` in FundingRecommendations.js: the
body is a single `console.log`, so no user-visible effect at all. -/
def fundingFetchProposalDataCatch (_e : AxiosFailure) : List Effect :=
  []

/-- Catch handler of `searchFundersRealtime` in FundingRecommendations.js. -/
def fundingSearchFundersCatch (e : AxiosFailure) : List Effect :=
  if failureStatus e = some 401 then
    sessionExpired401Effects
  else
    [Effect.toastErr (jsOr (failureDataError e) "Failed to search for funders")]

/-- Catch handler of `fetchProposalData` in ProposalAnalysis.js: on a non-401
failure it toasts a fixed message and navigates back to the dashboard. -/
def analysisFetchProposalDataCatch (e : AxiosFailure) : List Effect :=
  if failureStatus e = some 401 then
    sessionExpired401Effects
  else
    [Effect.toastErr "Failed to fetch proposal data", Effect.navEff "/dashboard"]

/-- Catch handler of `fetchBusinessPlanContent` in ProposalAnalysis.js: a
single `console.log`, so no user-visible effect. -/
def analysisFetchPlanContentCatch (_e : AxiosFailure) : List Effect :=
  []

/-- Catch handler of `analyzeProposal` in ProposalAnalysis.js. -/
def analysisAnalyzeProposalCatch (e : AxiosFailure) : List Effect :=
  if failureStatus e = some 401 then
    sessionExpired401Effects
  else
    [Effect.toastErr (jsOr (failureDataError e) "Failed to analyze proposal")]

/-- Catch handler of `downloadProposalPDF` in ProposalAnalysis.js. -/
def analysisDownloadCatch (e : AxiosFailure) : List Effect :=
  if failureStatus e = some 401 then
    sessionExpired401Effects
  else
    [Effect.toastErr (jsOr (failureDataError e) "Failed to download proposal")]

/-- Catch handler of `handleSubmit` in BusinessPlanGenerator.js. -/
def generatorHandleSubmitCatch (e : AxiosFailure) : List Effect :=
  if failureStatus e = some 401 then
    sessionExpired401Effects
  else
    [Effect.toastErr (jsOr (failureDataError e) "Failed to generate business plan")]

/-- Property every claim about the 401 reaction reduces to, per handler: the
handler emits exactly the shared error-toast / logout / navigate-to-login
triple, in that order. -/
def reacts401 (handler : AxiosFailure → List Effect) (e : AxiosFailure) : Prop :=
  handler e = sessionExpired401Effects

/-- One assignment source for the upload progress percentage while the
request is in flight: a firing of the simulated 200ms interval, or a firing
of the axios `onUploadProgress` callback with the bytes loaded so far and the
total. -/
inductive UploadEvent where
  | tick
  | transferProgress (loaded total : Nat)
deriving DecidableEq, Repr

/-- The functional update passed to `setUploadProgress` by the simulated
interval: at 90 or above it stays 90 (and the interval is cleared), otherwise
it adds 10. -/
def uploadTick (p : Nat) : Nat :=
  if p ≥ 90 then 90 else p + 10

/-- Value assigned to the progress percentage by one in-flight event, given
the previous value. -/
def uploadEventValue (p : Nat) : UploadEvent → Nat
  | .tick => uploadTick p
  | .transferProgress loaded total => jsRound (loaded * 100) total

/-- Successive values assigned by a sequence of in-flight events, starting
from the previous value `p`. -/
def uploadProgressValues (p : Nat) : List UploadEvent → List Nat
  | [] => []
  | e :: es =>
      let q := uploadEventValue p e
      q :: uploadProgressValues q es

/-- Every value assigned to `uploadProgress` during an upload that completes
successfully with in-flight events `events`: the initial
`setUploadProgress(0)`, the in-flight assignments, and the final
`setUploadProgress(100)` made after the awaited request resolves. -/
def uploadAssignments (events : List UploadEvent) : List Nat :=
  0 :: uploadProgressValues 0 events ++ [100]

/-- A proposal as rendered by the Dashboard (data model of the spec: id,
title, type, status, optional score, created_at). -/
structure Proposal where
  id : Nat
  title : String
  type : String
  status : String
  score : Option Nat := none
  created_at : String
deriving DecidableEq, Repr

/-- The `disabled` prop of the Funding button on a Dashboard card:
`proposal.status !== 'analyzed' && proposal.status !== 'completed'`. -/
def fundingActionDisabled (p : Proposal) : Bool :=
  (p.status != "analyzed") && (p.status != "completed")

/-- Whether the Funding action of a proposal card is enabled. -/
def fundingActionEnabled (p : Proposal) : Bool :=
  !fundingActionDisabled p

/-- Example session state: cold start with no ambient cookie followed by one
successful login. -/
def exampleLoggedIn : AuthState :=
  authStep (initAuthState none)
    (AuthEvent.loginAttempt (AuthApiResult.ok "tok"
      (some { id := 1, name := "Ada", email := "ada@example.com" })))

/-- Example proposal with status `completed`. -/
def exampleCompletedProposal : Proposal :=
  { id := 1, title := "Plan A", type := "generated", status := "completed",
    created_at := "2024-05-01" }

/-- Example proposal with status `analyzed`. -/
def exampleAnalyzedProposal : Proposal :=
  { id := 2, title := "Plan B", type := "uploaded", status := "analyzed",
    score := some 78, created_at := "2024-05-02" }

/-- Example proposal with status `processing`. -/
def exampleProcessingProposal : Proposal :=
  { id := 3, title := "Plan C", type := "uploaded", status := "processing",
    created_at := "2024-05-03" }

/-- Example in-flight upload trace: three ticks of the simulated interval,
then a transport callback at 1 of 20 bytes, then one at 20 of 20 bytes. -/
def exampleUploadTrace : List UploadEvent :=
  [UploadEvent.tick, UploadEvent.tick, UploadEvent.tick,
   UploadEvent.transferProgress 1 20, UploadEvent.transferProgress 20 20]

/-- What the view handlers actually do on a response carrying HTTP 401: the
eight main handlers emit the shared toast/logout/navigate triple; the Upload
handler does so only for body error `invalid_token` and otherwise emits a
single toast with neither logout nor navigation; the two auxiliary fetches
emit nothing. -/
def sessionHandlers401Prop (e : AxiosFailure) : Prop :=
  dashboardFetchProposalsCatch e = sessionExpired401Effects ∧
  dashboardDownloadCatch e = sessionExpired401Effects ∧
  fundingFetchRecommendationsCatch e = sessionExpired401Effects ∧
  fundingSearchFundersCatch e = sessionExpired401Effects ∧
  analysisFetchProposalDataCatch e = sessionExpired401Effects ∧
  analysisAnalyzeProposalCatch e = sessionExpired401Effects ∧
  analysisDownloadCatch e = sessionExpired401Effects ∧
  generatorHandleSubmitCatch e = sessionExpired401Effects ∧
  (failureDataError e = some "invalid_token" →
     uploadOnDropCatch e = sessionExpired401Effects) ∧
  (failureDataError e ≠ some "invalid_token" →
     uploadOnDropCatch e = [Effect.toastErr (jsOr (failureDataError e) "Upload failed")] ∧
     Effect.logoutEff ∉ uploadOnDropCatch e ∧
     Effect.navEff "/login" ∉ uploadOnDropCatch e) ∧
  fundingFetchProposalDataCatch e = [] ∧
  analysisFetchPlanContentCatch e = []

/-- Truthy possibly-absent strings are exactly the present non-empty ones. -/
theorem jsTruthyStr_iff (o : Option String) :
    jsTruthyStr o = true ↔ ∃ t, o = some t ∧ t ≠ "" := by
  cases o with
  | none => simp [jsTruthyStr]
  | some s => simp [jsTruthyStr]

/-- C3: if login succeeds then the response was a 2xx payload whose token is
now the session token (non-null), is persisted in the cookie named token with
a 1-day expiry, and is carried by the default Authorization header as
`Bearer` plus the token. -/
theorem c3_login_success_persists_token :
    ∀ (s : AuthState) (r : AuthApiResult),
      (loginCall s r).2.isSuccess = true →
      ∃ t u, r = AuthApiResult.ok t u ∧
        (loginCall s r).1.token = some t ∧
        (loginCall s r).1.token ≠ none ∧
        (loginCall s r).1.cookieToken = some t ∧
        (loginCall s r).1.cookieExpiresDays = some 1 ∧
        (loginCall s r).1.axiosAuthHeader = some ("Bearer " ++ t) := by
  intro s r h
  cases r with
  | ok t u => exact ⟨t, u, rfl, rfl, by simp [loginCall], rfl, rfl, rfl⟩
  | err e => simp [loginCall, AuthOutcome.isSuccess] at h

/-- C3 witness: a concrete successful login from the cold-start state. -/
theorem c3_witness :
    (loginCall (initAuthState none) (AuthApiResult.ok "tok" none)).2.isSuccess = true ∧
    (loginCall (initAuthState none) (AuthApiResult.ok "tok" none)).1.token = some "tok" ∧
    (loginCall (initAuthState none) (AuthApiResult.ok "tok" none)).1.axiosAuthHeader =
      some "Bearer tok" := by
  have h := c3_login_success_persists_token (initAuthState none)
    (AuthApiResult.ok "tok" none) rfl
  obtain ⟨t, u, heq, htok, hnn, hcookie, hexp, hhdr⟩ := h
  cases heq
  exact ⟨rfl, htok, hhdr⟩

/-- C4: login and register are total on every state and backend response and
always return a discriminated outcome: success with the returned user on a
2xx payload, failure with the normalized body error (falling back to the
fixed messages) on any thrown error. -/
theorem c4_login_register_discriminated :
    (∀ (s : AuthState) (r : AuthApiResult),
       ((∃ u, (loginCall s r).2 = AuthOutcome.success u) ∨
        (∃ m, (loginCall s r).2 = AuthOutcome.failure m)) ∧
       ((∃ u, (registerCall s r).2 = AuthOutcome.success u) ∨
        (∃ m, (registerCall s r).2 = AuthOutcome.failure m))) ∧
    (∀ (s : AuthState) (t : String) (u : Option UserSummary),
       (loginCall s (AuthApiResult.ok t u)).2 = AuthOutcome.success u ∧
       (registerCall s (AuthApiResult.ok t u)).2 = AuthOutcome.success u) ∧
    (∀ (s : AuthState) (e : AxiosFailure),
       (loginCall s (AuthApiResult.err e)).2 =
         AuthOutcome.failure (jsOr (failureDataError e) "Login failed") ∧
       (registerCall s (AuthApiResult.err e)).2 =
         AuthOutcome.failure (jsOr (failureDataError e) "Registration failed")) := by
  refine ⟨?_, ?_, ?_⟩
  · intro s r
    cases r with
    | ok t u => exact ⟨Or.inl ⟨u, rfl⟩, Or.inl ⟨u, rfl⟩⟩
    | err e => exact ⟨Or.inr ⟨_, rfl⟩, Or.inr ⟨_, rfl⟩⟩
  · intro s t u
    exact ⟨rfl, rfl⟩
  · intro s e
    exact ⟨rfl, rfl⟩

/-- C5: a failing login attempt leaves the whole session state — token, user,
persisted cookie, expiry and default header — unchanged. -/
theorem c5_login_failure_preserves_state :
    ∀ (s : AuthState) (r : AuthApiResult),
      (loginCall s r).2.isSuccess = false → (loginCall s r).1 = s := by
  intro s r h
  cases r with
  | ok t u => simp [loginCall, AuthOutcome.isSuccess] at h
  | err e => rfl

/-- C5 witness: a concrete bad-credentials failure on a logged-in state. -/
theorem c5_witness :
    (loginCall exampleLoggedIn
      (AuthApiResult.err (some { status := 401, dataError := some "Invalid credentials" }))).2.isSuccess
      = false ∧
    (loginCall exampleLoggedIn
      (AuthApiResult.err (some { status := 401, dataError := some "Invalid credentials" }))).1
      = exampleLoggedIn :=
  ⟨rfl, c5_login_failure_preserves_state _ _ rfl⟩

/-- C6: after logout the token and user are null, the cookie and the default
header are removed, and a second logout leaves the state of the first one
unchanged. -/
theorem c6_logout_clears_and_idempotent :
    ∀ s : AuthState,
      (logoutCall s).token = none ∧
      (logoutCall s).user = none ∧
      (logoutCall s).cookieToken = none ∧
      (logoutCall s).axiosAuthHeader = none ∧
      logoutCall (logoutCall s) = logoutCall s := by
  intro s
  exact ⟨rfl, rfl, rfl, rfl, rfl⟩

/-- C10: useAuth throws the fixed error when no AuthProvider supplies a
context, and returns the provided value — in particular the value the
provider derives from its state — otherwise. -/
theorem c10_useAuth_guard :
    useAuth none = Except.error "useAuth must be used within an AuthProvider" ∧
    (∀ v : AuthContextValue, useAuth (some v) = Except.ok v) ∧
    (∀ s : AuthState, useAuth (some (providerValue s)) = Except.ok (providerValue s)) :=
  ⟨rfl, fun _ => rfl, fun _ => rfl⟩

/-- Every reachable session state holds either no token or a non-empty
token: hydration adopts only truthy cookie values, well-formed success
responses carry non-empty tokens, failures change nothing, logout clears. -/
theorem reachable_token_wf :
    ∀ s : AuthState, ReachableAuth s →
      s.token = none ∨ ∃ t, s.token = some t ∧ t ≠ "" := by
  intro s h
  induction h with
  | init c => exact Or.inl rfl
  | step e hr hwf ih =>
    rename_i s'
    cases e with
    | hydrateEv =>
      by_cases hc : jsTruthyStr s'.cookieToken = true
      · rcases (jsTruthyStr_iff s'.cookieToken).1 hc with ⟨t, ht, hne⟩
        right
        exact ⟨t, by simp [authStep, hydrate, ht, jsTruthyStr, hne], hne⟩
      · simpa [authStep, hydrate, hc] using ih
    | loginAttempt r =>
      cases r with
      | ok t u => exact Or.inr ⟨t, rfl, hwf⟩
      | err e0 => exact ih
    | registerAttempt r =>
      cases r with
      | ok t u => exact Or.inr ⟨t, rfl, hwf⟩
      | err e0 => exact ih
    | logoutEv => exact Or.inl rfl

/-- C7: in every reachable session state the derived isAuthenticated boolean
is true exactly when the token is non-null. -/
theorem c7_isAuthenticated_iff_token :
    ∀ s : AuthState, ReachableAuth s →
      (isAuthenticated s = true ↔ s.token ≠ none) := by
  intro s h
  rcases reachable_token_wf s h with hn | ⟨t, ht, hne⟩
  · simp [isAuthenticated, hn, jsTruthyStr]
  · simp [isAuthenticated, ht, jsTruthyStr, hne]

/-- C7 witness: the state after a concrete successful login is reachable and
satisfies the equivalence. -/
theorem c7_witness :
    ReachableAuth exampleLoggedIn ∧
    (isAuthenticated exampleLoggedIn = true ↔ exampleLoggedIn.token ≠ none) := by
  have hr : ReachableAuth exampleLoggedIn :=
    ReachableAuth.step _ (ReachableAuth.init none) (by simp [AuthEventWF])
  exact ⟨hr, c7_isAuthenticated_iff_token _ hr⟩

/-- Each Auth Context operation preserves the invariant that a non-null user
entails a non-null token. -/
theorem authStep_preserves_user_token :
    ∀ (s : AuthState) (e : AuthEvent),
      (s.user ≠ none → s.token ≠ none) →
      ((authStep s e).user ≠ none → (authStep s e).token ≠ none) := by
  intro s e h
  cases e with
  | hydrateEv =>
    by_cases hc : jsTruthyStr s.cookieToken = true
    · intro hu
      rcases (jsTruthyStr_iff s.cookieToken).1 hc with ⟨t, ht, hne⟩
      simp [authStep, hydrate, ht, jsTruthyStr, hne]
    · intro hu
      simp [authStep, hydrate, hc] at hu ⊢
      exact h hu
  | loginAttempt r =>
    cases r with
    | ok t u => intro _; simp [authStep, loginCall]
    | err e0 =>
      intro hu
      simpa [authStep, loginCall] using h (by simpa [authStep, loginCall] using hu)
  | registerAttempt r =>
    cases r with
    | ok t u => intro _; simp [authStep, registerCall]
    | err e0 =>
      intro hu
      simpa [authStep, registerCall] using h (by simpa [authStep, registerCall] using hu)
  | logoutEv =>
    intro hu
    simp [authStep, logoutCall] at hu

/-- C8: in every reachable session state the user is non-null only if the
token is non-null, and every Auth Context operation — hydration, login,
register, logout — preserves that invariant from any state. -/
theorem c8_user_requires_token :
    (∀ s : AuthState, ReachableAuth s → (s.user ≠ none → s.token ≠ none)) ∧
    (∀ (s : AuthState) (e : AuthEvent),
       (s.user ≠ none → s.token ≠ none) →
       ((authStep s e).user ≠ none → (authStep s e).token ≠ none)) := by
  constructor
  · intro s h
    induction h with
    | init c => intro hu; simp [initAuthState] at hu
    | step e hr hwf ih => exact authStep_preserves_user_token _ e ih
  · exact authStep_preserves_user_token

/-- C8 witness: the invariant evaluated on the concrete logged-in state and
on its hydration successor. -/
theorem c8_witness :
    exampleLoggedIn.token ≠ none ∧
    (authStep exampleLoggedIn AuthEvent.hydrateEv).token ≠ none := by
  have hr : ReachableAuth exampleLoggedIn :=
    ReachableAuth.step _ (ReachableAuth.init none) (by simp [AuthEventWF])
  refine ⟨c8_user_requires_token.1 exampleLoggedIn hr (by decide), ?_⟩
  exact c8_user_requires_token.2 exampleLoggedIn AuthEvent.hydrateEv
    (c8_user_requires_token.1 exampleLoggedIn hr) (by decide)

/-- C1 counterexample: on a 401 response whose body does not carry the error
`invalid_token`, the Upload view emits only a toast — no logout and no
navigation — and the auxiliary proposal fetch of the Funding view emits
nothing at all, so the views do not all react to 401 identically with the
notify/logout/navigate triple. -/
theorem c1_counterexample :
    uploadOnDropCatch (some { status := 401 }) = [Effect.toastErr "Upload failed"] ∧
    Effect.logoutEff ∉ uploadOnDropCatch (some { status := 401 }) ∧
    Effect.navEff "/login" ∉ uploadOnDropCatch (some { status := 401 }) ∧
    fundingFetchProposalDataCatch (some { status := 401 }) = [] := by decide

/-- C1 (amended): on any response carrying HTTP 401, the two Dashboard
handlers, the three main Funding and Analysis handlers each, and the
Generator handler perform exactly one error notification, one logout and one
navigation to the login view, in that order; the Upload handler does so only
when the response body also carries the error `invalid_token`, and otherwise
performs one error notification and neither logout nor navigation; the
auxiliary fetches of the Funding and Analysis views perform no user-visible
effect. -/
theorem c1_amended_401_reactions :
    ∀ e : AxiosFailure, failureStatus e = some 401 → sessionHandlers401Prop e := by
  intro e h
  refine ⟨?_, ?_, ?_, ?_, ?_, ?_, ?_, ?_, ?_, ?_, rfl, rfl⟩
  · simp [dashboardFetchProposalsCatch, h]
  · simp [dashboardDownloadCatch, h]
  · simp [fundingFetchRecommendationsCatch, h]
  · simp [fundingSearchFundersCatch, h]
  · simp [analysisFetchProposalDataCatch, h]
  · simp [analysisAnalyzeProposalCatch, h]
  · simp [analysisDownloadCatch, h]
  · simp [generatorHandleSubmitCatch, h]
  · intro hinv
    simp [uploadOnDropCatch, h, hinv]
  · intro hninv
    have hcond : ¬ (failureStatus e = some 401 ∧ failureDataError e = some "invalid_token") :=
      fun hc => hninv hc.2
    exact ⟨by simp [uploadOnDropCatch, hcond], by simp [uploadOnDropCatch, hcond],
      by simp [uploadOnDropCatch, hcond]⟩

/-- C1 witness: a concrete 401 without a body error field. -/
theorem c1_witness :
    failureStatus (some { status := 401 }) = some 401 ∧
    sessionHandlers401Prop (some { status := 401 }) :=
  ⟨rfl, c1_amended_401_reactions _ rfl⟩

/-- C2 counterexample: with three ticks of the simulated interval followed by
a transport callback at 1 of 20 bytes and one at 20 of 20 bytes, a
successfully completing upload assigns 0, 10, 20, 30, 5, 100, 100 — a
sequence that decreases from 30 to 5 and reaches 100 strictly before the
final completion assignment. -/
theorem c2_counterexample :
    uploadAssignments exampleUploadTrace = [0, 10, 20, 30, 5, 100, 100] ∧
    ¬ List.Chain' (· ≤ ·) (uploadAssignments exampleUploadTrace) ∧
    100 ∈ (uploadAssignments exampleUploadTrace).dropLast := by
  have h : uploadAssignments exampleUploadTrace = [0, 10, 20, 30, 5, 100, 100] := by decide
  refine ⟨h, ?_, ?_⟩
  · rw [h]
    simp [List.chain'_cons]
  · rw [h]
    decide

/-- A run of the simulated ticker alone, started at a multiple of ten that is
at most 90, yields a non-decreasing sequence of values that are all at most
90. -/
theorem tickRun_bounded_chain :
    ∀ (n p : Nat), p ≤ 90 → p % 10 = 0 →
      List.Chain' (· ≤ ·)
        (p :: uploadProgressValues p (List.replicate n UploadEvent.tick)) ∧
      ∀ v ∈ p :: uploadProgressValues p (List.replicate n UploadEvent.tick), v ≤ 90 := by
  intro n
  induction n with
  | zero =>
    intro p hp hm
    constructor
    · simp [uploadProgressValues]
    · intro v hv
      simp [uploadProgressValues] at hv
      omega
  | succ k ih =>
    intro p hp hm
    have hq90 : uploadTick p ≤ 90 := by unfold uploadTick; split <;> omega
    have hqm : uploadTick p % 10 = 0 := by unfold uploadTick; split <;> omega
    have hpq : p ≤ uploadTick p := by unfold uploadTick; split <;> omega
    obtain ⟨ih1, ih2⟩ := ih (uploadTick p) hq90 hqm
    rw [List.replicate_succ]
    simp only [uploadProgressValues, uploadEventValue]
    constructor
    · exact List.chain'_cons.2 ⟨hpq, ih1⟩
    · intro v hv
      rcases List.mem_cons.1 hv with rfl | hrest
      · exact hp
      · exact ih2 v hrest

/-- C2 (amended): every successfully completing upload makes 100 its final
progress assignment, and an upload during which only the simulated interval
fires assigns a non-decreasing sequence whose values before the completion
assignment never exceed 90; a transport progress callback, however, assigns
the rounded percentage of bytes loaded regardless of the previous value, so
interleaved callbacks can lower the percentage or reach 100 early. -/
theorem c2_amended_upload_progress :
    (∀ events : List UploadEvent, (uploadAssignments events).getLast? = some 100) ∧
    (∀ n : Nat,
       List.Chain' (· ≤ ·) (uploadAssignments (List.replicate n UploadEvent.tick)) ∧
       ∀ v ∈ (uploadAssignments (List.replicate n UploadEvent.tick)).dropLast, v ≤ 90) := by
  constructor
  · intro events
    show ((0 :: uploadProgressValues 0 events) ++ [100]).getLast? = some 100
    exact List.getLast?_concat _
  · intro n
    obtain ⟨hch, hb⟩ := tickRun_bounded_chain n 0 (by omega) (by omega)
    constructor
    · show List.Chain' (· ≤ ·)
        ((0 :: uploadProgressValues 0 (List.replicate n UploadEvent.tick)) ++ [100])
      rw [List.chain'_append]
      refine ⟨hch, by simp, ?_⟩
      intro x hx y hy
      simp at hy
      subst hy
      have hx' : x ∈ 0 :: uploadProgressValues 0 (List.replicate n UploadEvent.tick) := by
        rcases List.mem_getLast?_eq_getLast hx with ⟨hne, rfl⟩
        exact List.getLast_mem hne
      have := hb x hx'
      omega
    · show ∀ v ∈ ((0 :: uploadProgressValues 0 (List.replicate n UploadEvent.tick))
          ++ [100]).dropLast, v ≤ 90
      rw [List.dropLast_concat]
      exact hb

/-- C2 witness: the amended statement evaluated on the concrete example trace
and on a three-tick run. -/
theorem c2_witness :
    (uploadAssignments exampleUploadTrace).getLast? = some 100 ∧
    List.Chain' (· ≤ ·) (uploadAssignments (List.replicate 3 UploadEvent.tick)) ∧
    30 ∈ (uploadAssignments (List.replicate 3 UploadEvent.tick)).dropLast ∧
    30 ≤ 90 := by
  refine ⟨c2_amended_upload_progress.1 exampleUploadTrace,
    (c2_amended_upload_progress.2 3).1, by decide,
    (c2_amended_upload_progress.2 3).2 30 (by decide)⟩

/-- C9 counterexample: a proposal with status `completed` has the Funding
action enabled although its status is not `analyzed`. -/
theorem c9_counterexample :
    fundingActionEnabled exampleCompletedProposal = true ∧
    exampleCompletedProposal.status ≠ "analyzed" := by decide

/-- C9 (amended): the Funding action of a proposal card is enabled exactly
when its status is `analyzed` or `completed`; in particular, of two proposals
with status `analyzed` and `processing`, only the `analyzed` one has Funding
enabled. -/
theorem c9_amended_funding_enabled_iff :
    (∀ p : Proposal, fundingActionEnabled p = true ↔
       (p.status = "analyzed" ∨ p.status = "completed")) ∧
    (∀ p q : Proposal, p.status = "analyzed" → q.status = "processing" →
       fundingActionEnabled p = true ∧ fundingActionEnabled q = false) := by
  constructor
  · intro p
    by_cases h1 : p.status = "analyzed" <;> by_cases h2 : p.status = "completed" <;>
      simp [fundingActionEnabled, fundingActionDisabled, h1, h2]
  · intro p q hp hq
    constructor <;> simp [fundingActionEnabled, fundingActionDisabled, hp, hq]

/-- C9 witness: the two stubbed proposals of the spec scenario. -/
theorem c9_witness :
    exampleAnalyzedProposal.status = "analyzed" ∧
    exampleProcessingProposal.status = "processing" ∧
    fundingActionEnabled exampleAnalyzedProposal = true ∧
    fundingActionEnabled exampleProcessingProposal = false := by
  have h := c9_amended_funding_enabled_iff.2 exampleAnalyzedProposal
    exampleProcessingProposal rfl rfl
  exact ⟨rfl, rfl, h.1, h.2⟩
